import Mathlib

/-!
Verification development for the Airtable → Shopify synchronization relay
(`src/app.py`).  The Python source is shallowly embedded: every outbound
HTTP request is recorded as an `OutCall` in an explicit trace, the two
process-wide caches (access token, market price lists) are threaded as
explicit state, and the responses of the remote platform are supplied by a
`World` of oracles.  Fallible paths (the token exchange raising) are
modelled with `Except`.  Python floats are modelled as exact rationals:
every numeric value reaching this program is parsed from a short decimal
literal, for which binary floating point is exact, so `ℚ` is a faithful
carrier; arithmetic is implemented over `mkRat` and integer operations so
that all definitions evaluate by kernel reduction.
-/

namespace ShopifySync

/-- Whitespace set of Python `str.strip()` / `float()` (ASCII part). -/
def pyIsSpace (c : Char) : Bool :=
  c = ' ' || c = '\t' || c = '\n' || c = '\r' || c = '\x0b' || c = '\x0c'

/-- Python `str.strip()` with no argument: drop leading and trailing
whitespace.  Used by the webhook secret check. -/
def pyStrip (s : String) : String :=
  String.mk (((s.toList.dropWhile pyIsSpace).reverse.dropWhile pyIsSpace).reverse)

/-- Python `s.split("/")[-1]`: the substring after the last `/` (the whole
string when no `/` occurs).  Used to extract numeric ids from Shopify
global ids such as `gid://shopify/ProductVariant/123`. -/
def lastSeg (s : String) : String :=
  String.mk ((List.splitOn '/' s.toList).getLastD [])

/-- Value of a list of decimal digit characters. -/
def digitsVal (l : List Char) : ℕ :=
  l.foldl (fun a c => a * 10 + (c.toNat - 48)) 0

/-- Python `float(s)` on a plain decimal string literal: optional
whitespace, optional sign, digits with an optional fractional part
(`"10"`, `"10."`, `".5"`, `"99.5"`, `"-3.25"`).  Exponent, `inf`/`nan`
and underscore forms — which never occur in this system's payloads — are
not accepted and yield `none` (in the source they raise, and `_to_number`
maps the exception to `None` just the same). -/
def parseFloat (s : String) : Option ℚ :=
  let t := ((s.toList.dropWhile pyIsSpace).reverse.dropWhile pyIsSpace).reverse
  let p : ℤ × List Char :=
    match t with
    | '+' :: r => (1, r)
    | '-' :: r => (-1, r)
    | r => (1, r)
  match List.splitOn '.' p.2 with
  | [ip] =>
      if ip ≠ [] ∧ ip.all Char.isDigit then
        some (mkRat (p.1 * (digitsVal ip : ℤ)) 1)
      else none
  | [ip, fp] =>
      if (ip ≠ [] ∨ fp ≠ []) ∧ ip.all Char.isDigit ∧ fp.all Char.isDigit then
        some (mkRat (p.1 * ((digitsVal ip : ℤ) * 10 ^ fp.length + (digitsVal fp : ℤ)))
          (10 ^ fp.length))
      else none
  | _ => none

/-- Decimal digits of the fractional part `r / d` (`0 ≤ r < d`), emitted
with explicit fuel so the definition is structural. -/
def fracDigitsStr : ℕ → ℕ → ℕ → String
  | 0, _, _ => ""
  | fuel + 1, r, d =>
      if r = 0 then ""
      else toString (r * 10 / d) ++ fracDigitsStr fuel (r * 10 % d) d

/-- Python `str(x)` on a float `x`: sign, integer part, `"."`, fractional
digits (`"0"` when the value is integral, so `str(10.0) = "10.0"`).
Faithful for every float whose value has a terminating decimal expansion
of at most 25 digits — in particular for every price or quantity this
system parses from a short decimal literal. -/
def ratToPyStr (q : ℚ) : String :=
  let sign := if q.num < 0 then "-" else ""
  let n : ℕ := q.num.natAbs
  let i : ℕ := n / q.den
  let r : ℕ := n % q.den
  sign ++ toString i ++ "." ++ (if r = 0 then "0" else fracDigitsStr 25 r q.den)

/-- Python `int(x)` on a float `x`: truncation toward zero.  On the
reduced fraction `num/den` this is integer T-division. -/
def pyInt (q : ℚ) : ℤ :=
  q.num.tdiv (q.den : ℤ)

/-- `a < b` on rationals, computed from the cross product so it evaluates
by kernel reduction (denominators are positive). -/
def ratLtB (a b : ℚ) : Bool :=
  a.num * (b.den : ℤ) < b.num * (a.den : ℤ)

/-- `a - b` on rationals, built with `mkRat` so it evaluates by kernel
reduction. -/
def ratSub (a b : ℚ) : ℚ :=
  mkRat (a.num * (b.den : ℤ) - b.num * (a.den : ℤ)) (a.den * b.den)

/-- A JSON value as Python's `json` module materialises it: strings,
integer literals (Python `int`), non-integral numbers (Python `float`)
and booleans.  JSON `null` is Python `None`, which `dict.get` also
returns for an absent key, so it is folded into `Option.none` at every
use site. -/
inductive JVal
  | str (s : String)
  | int (n : ℤ)
  | float (q : ℚ)
  | bool (b : Bool)
deriving DecidableEq

/-- Python truthiness of a JSON value. -/
def JVal.truthy : JVal → Bool
  | .str s => s ≠ ""
  | .int n => n ≠ 0
  | .float q => q.num ≠ 0
  | .bool b => b

/-- Python truthiness of `dict.get`'s result (`None` is falsy). -/
def truthyO : Option JVal → Bool
  | none => false
  | some v => v.truthy

/-- Python `str(x)`. -/
def pyStr : JVal → String
  | .str s => s
  | .int n => toString n
  | .float q => ratToPyStr q
  | .bool b => if b then "True" else "False"

/-- The parsed JSON body: an insertion-ordered dictionary. -/
abbrev Payload := List (String × JVal)

/-- Python `dict.get(k)`: `None` when the key is absent. -/
def pget (d : Payload) (k : String) : Option JVal :=
  (d.find? (fun p => p.1 == k)).map Prod.snd

/-- `_to_number` from `src/app.py`: `None` and `""` map to `None`, a
string is parsed with `float` (parse failure → `None`), numbers and
booleans are coerced with `float`. -/
def to_number : Option JVal → Option ℚ
  | none => none
  | some (.str s) => if s = "" then none else parseFloat s
  | some (.int n) => some (mkRat n 1)
  | some (.float q) => some q
  | some (.bool b) => some (if b then mkRat 1 1 else mkRat 0 1)

/-- The three market keys of the `prices` / `compare_prices` dicts, in
their (insertion-) iteration order. -/
inductive Market
  | UAE
  | Asia
  | America
deriving DecidableEq

/-- `MARKET_NAMES` from `src/app.py`. -/
def MARKET_NAMES : Market → String
  | .UAE => "United Arab Emirates"
  | .Asia => "Asia Market with 55 rate"
  | .America => "America catlog"

/-- Payload key of each market's price. -/
def priceKey : Market → String
  | .UAE => "UAE price"
  | .Asia => "Asia Price"
  | .America => "America Price"

/-- Payload key of each market's comparison price. -/
def compareKey : Market → String
  | .UAE => "UAE Comparison Price"
  | .Asia => "Asia Comparison Price"
  | .America => "America Comparison Price"

/-- Iteration order of `for market, price in prices.items()`. -/
def marketList : List Market := [.UAE, .Asia, .America]

/-- The module-level token cache: `SHOPIFY_TOKEN` (initially `None`) and
`TOKEN_TIME` (initially `0`), timestamps in seconds. -/
structure TokenCache where
  token : Option String
  time : ℚ
deriving DecidableEq

/-- Python truthiness of `SHOPIFY_TOKEN`. -/
def tokenTruthy : Option String → Bool
  | none => false
  | some s => s ≠ ""

/-- The guard `SHOPIFY_TOKEN and time.time() - TOKEN_TIME < 3000` of
`get_shopify_access_token`. -/
def tokenFresh (now : ℚ) (st : TokenCache) : Bool :=
  tokenTruthy st.token && ratLtB (ratSub now st.time) (mkRat 3000 1)

/-- `get_shopify_access_token` from `src/app.py`.  `now` is the value of
`time.time()`; `tokenResp` is the `access_token` field of the token
endpoint's JSON response (`none` when the field is absent).  Returns the
token or the raised `Exception`, the resulting cache, and whether a token
exchange request was issued.  On the raising path the `POST` has already
been issued but the cache assignments are never reached. -/
def get_shopify_access_token (now : ℚ) (tokenResp : Option String)
    (st : TokenCache) : Except Unit String × TokenCache × Bool :=
  if tokenFresh now st then
    (.ok (st.token.getD ""), st, false)
  else
    match tokenResp with
    | none => (.error (), st, true)
    | some tok => if tok = "" then (.error (), st, true) else (.ok tok, ⟨some tok, now⟩, true)

/-- A catalog's `priceList` object: `{id, currency}`. -/
structure PriceList where
  id : String
  currency : String
deriving DecidableEq

/-- One node of the `catalogs(first: 20, type: MARKET)` query result. -/
structure CatalogNode where
  title : String
  status : String
  priceList : Option PriceList
deriving DecidableEq

/-- The `price_lists` dict: catalog title → price-list id and currency. -/
abbrev PriceLists := List (String × PriceList)

/-- Python dict insertion: replace the value when the key exists,
append otherwise. -/
def plInsert (m : PriceLists) (k : String) (v : PriceList) : PriceLists :=
  if m.any (fun p => p.1 == k) then
    m.map (fun p => if p.1 == k then (k, v) else p)
  else m ++ [(k, v)]

/-- `price_lists.get(k)`. -/
def plGet (m : PriceLists) (k : String) : Option PriceList :=
  (m.find? (fun p => p.1 == k)).map Prod.snd

/-- The loop body of `get_market_price_lists`: keep the catalogs whose
`status` is `ACTIVE` and that carry a `priceList`. -/
def buildPriceLists (nodes : List CatalogNode) : PriceLists :=
  nodes.foldl
    (fun acc c =>
      if c.status = "ACTIVE" then
        match c.priceList with
        | some pl => plInsert acc c.title pl
        | none => acc
      else acc)
    []

/-- Python truthiness of `CACHED_PRICE_LISTS`: `None` and the empty dict
are both falsy. -/
def plTruthy : Option PriceLists → Bool
  | none => false
  | some l => !l.isEmpty

/-- The cache logic of `get_market_price_lists` from `src/app.py`:
`nodes` is the catalog query's result, `cache` the current value of
`CACHED_PRICE_LISTS`.  Returns the mapping, the resulting cache, and
whether the catalog-listing GraphQL query was issued. -/
def get_market_price_lists (nodes : List CatalogNode) (cache : Option PriceLists) :
    PriceLists × Option PriceLists × Bool :=
  if plTruthy cache then
    (cache.getD [], cache, false)
  else
    let pl := buildPriceLists nodes
    (pl, some pl, true)

/-- One outbound HTTP request of the webhook handling, with the payload
fields the claims inspect. -/
inductive OutCall
  | tokenExchange
  | gqlVariantSearch (query : String)
  | restGetVariant (variantId : String)
  | restPutVariantDetails (variantId : String) (title barcode : Option JVal)
  | restPutProductTitle (productId : String) (title : JVal)
  | gqlMetafieldsSet (ownerId ns key mtype value : String)
  | restPutVariantPrice (variantId : String) (price : String) (compareAtPrice : Option String)
  | restGetLocations
  | restPostInventorySet (inventoryItemId locationId available : ℤ)
  | gqlCatalogList
  | gqlPriceListFixedPricesAdd (priceListId variantGid amount currency : String)
      (compareAmount : Option String)
deriving DecidableEq

/-- The first node of the variant search result. -/
structure VariantNode where
  id : String
  productId : String
deriving DecidableEq

/-- The remote platform's responses during one webhook invocation, plus
the request's wall-clock instant. -/
structure World where
  now : ℚ
  tokenResp : Option String
  searchResult : Option VariantNode
  inventoryItemId : ℤ
  primaryLocationId : ℤ
  catalogNodes : List CatalogNode

/-- The process state threaded through one invocation: both caches and
the trace of outbound requests issued so far. -/
structure St where
  tc : TokenCache
  plc : Option PriceLists
  tr : List OutCall
deriving DecidableEq

/-- Append one outbound request to the trace. -/
def emit (c : OutCall) (s : St) : St :=
  { s with tr := s.tr ++ [c] }

/-- `_json_headers()`: obtains the access token (possibly issuing a token
exchange), failing the whole request when the exchange raises. -/
def jsonHeaders (w : World) (s : St) : Except St St :=
  match get_shopify_access_token w.now w.tokenResp s.tc with
  | (res, tc2, issued) =>
      let s2 : St := ⟨tc2, s.plc, s.tr ++ if issued then [OutCall.tokenExchange] else []⟩
      match res with
      | .ok _ => .ok s2
      | .error _ => .error s2

/-- `get_variant_product_and_inventory_by_sku` from `src/app.py`: one
GraphQL search for `sku:<value>` restricted to the first match, then —
only when a match exists — one REST variant-detail fetch for the
inventory item id.  Returns `(variant_gid, product_gid, variant_id,
inventory_item_id)` or `none` for the all-`None` tuple. -/
def get_variant_product_and_inventory_by_sku (w : World) (skuQ : String) (s : St) :
    Except St (Option (String × String × String × ℤ) × St) := do
  let s ← jsonHeaders w s
  let s := emit (.gqlVariantSearch skuQ) s
  match w.searchResult with
  | none => .ok (none, s)
  | some node =>
      let variant_id := lastSeg node.id
      let s ← jsonHeaders w s
      let s := emit (.restGetVariant variant_id) s
      .ok (some (node.id, node.productId, variant_id, w.inventoryItemId), s)

/-- `update_variant_default_price` from `src/app.py`: REST `PUT` of
`price = str(price)` and, only when a comparison price was given,
`compare_at_price = str(compare_price)`. -/
def update_variant_default_price (w : World) (variant_id : String) (price : ℚ)
    (compare_price : Option ℚ) (s : St) : Except St St := do
  let s ← jsonHeaders w s
  .ok (emit (.restPutVariantPrice variant_id (ratToPyStr price)
    (compare_price.map ratToPyStr)) s)

/-- `update_price_list` from `src/app.py`: the
`priceListFixedPricesAdd` mutation with `amount = str(price)` in the
catalog's currency and an optional compare-at amount. -/
def update_price_list (w : World) (price_list_id variant_gid : String) (price : ℚ)
    (currency : String) (compare_price : Option ℚ) (s : St) : Except St St := do
  let s ← jsonHeaders w s
  .ok (emit (.gqlPriceListFixedPricesAdd price_list_id variant_gid (ratToPyStr price)
    currency (compare_price.map ratToPyStr)) s)

/-- `get_primary_location_id` from `src/app.py`: REST fetch of
`locations.json`, first location's id. -/
def get_primary_location_id (w : World) (s : St) : Except St (ℤ × St) := do
  let s ← jsonHeaders w s
  .ok (w.primaryLocationId, emit .restGetLocations s)

/-- `set_inventory_absolute` from `src/app.py`: REST `POST` of
`inventory_levels/set.json` with `available = int(quantity)`. -/
def set_inventory_absolute (w : World) (inventory_item_id location_id : ℤ)
    (quantity : ℚ) (s : St) : Except St St := do
  let s ← jsonHeaders w s
  .ok (emit (.restPostInventorySet inventory_item_id location_id (pyInt quantity)) s)

/-- `update_variant_details` from `src/app.py`: no-op when neither field
is truthy, otherwise a REST `PUT` carrying exactly the truthy fields. -/
def update_variant_details (w : World) (variant_gid : String)
    (title barcode : Option JVal) (s : St) : Except St St :=
  if !(truthyO title || truthyO barcode) then .ok s
  else do
    let s ← jsonHeaders w s
    .ok (emit (.restPutVariantDetails (lastSeg variant_gid)
      (if truthyO title then title else none)
      (if truthyO barcode then barcode else none)) s)

/-- `update_product_title` from `src/app.py`. -/
def update_product_title (w : World) (product_gid : String) (title : JVal)
    (s : St) : Except St St := do
  let s ← jsonHeaders w s
  .ok (emit (.restPutProductTitle (lastSeg product_gid) title) s)

/-- `set_metafield` from `src/app.py`: the `metafieldsSet` mutation with
`value = str(value)`. -/
def set_metafield (w : World) (owner_id_gid ns key mtype : String) (value : JVal)
    (s : St) : Except St St := do
  let s ← jsonHeaders w s
  .ok (emit (.gqlMetafieldsSet owner_id_gid ns key mtype (pyStr value)) s)

/-- The call to `get_market_price_lists()` inside the handler: answered
from `CACHED_PRICE_LISTS` when that is truthy, otherwise one
catalog-listing GraphQL query is issued and its result cached. -/
def get_market_price_lists_call (w : World) (s : St) : Except St (PriceLists × St) :=
  match get_market_price_lists w.catalogNodes s.plc with
  | (pl, cache2, issued) =>
      if issued then do
        let s ← jsonHeaders w s
        .ok (pl, { emit .gqlCatalogList s with plc := cache2 })
      else .ok (pl, { s with plc := cache2 })

/-- The `for market, price in prices.items()` loop of the handler:
markets with no price, or whose catalog title is not in `price_lists`,
are skipped; the others get one `update_price_list` call. -/
def priceListLoop (w : World) (variant_gid : String)
    (prices compare_prices : Market → Option ℚ) (pls : PriceLists) :
    List Market → St → Except St St
  | [], s => .ok s
  | m :: rest, s =>
      match prices m with
      | none => priceListLoop w variant_gid prices compare_prices pls rest s
      | some price =>
          match plGet pls (MARKET_NAMES m) with
          | none => priceListLoop w variant_gid prices compare_prices pls rest s
          | some pl => do
              let s ← update_price_list w pl.id variant_gid price pl.currency
                (compare_prices m) s
              priceListLoop w variant_gid prices compare_prices pls rest s

/-- The webhook handler's HTTP responses. -/
inductive WebhookResp
  | unauthorized401
  | skuMissing400
  | notFound404
  | success200
  | serverError500
deriving DecidableEq

/-- HTTP status code of each response. -/
def respStatus : WebhookResp → ℕ
  | .unauthorized401 => 401
  | .skuMissing400 => 400
  | .notFound404 => 404
  | .success200 => 200
  | .serverError500 => 500

/-- JSON body of each response (`none` for the framework's default error
page on an unhandled exception). -/
def respBody : WebhookResp → Option String
  | .unauthorized401 => some "\x7b\"error\": \"Unauthorized\"\x7d"
  | .skuMissing400 => some "\x7b\"error\": \"SKU missing\"\x7d"
  | .notFound404 => some "\x7b\"error\": \"Variant not found\"\x7d"
  | .success200 => some "\x7b\"status\": \"success\"\x7d"
  | .serverError500 => none

/-- The update pipeline of `airtable_webhook` after the secret and SKU
checks, in source order: variant resolution (404 when the search is
unmatched or the returned gid is falsy — `if not variant_gid:`),
title/barcode, product title, size metafield, UAE default price,
inventory, then the unconditional `get_market_price_lists()` call and
the per-market price-list loop. -/
def processSku (w : World) (skuQ : String) (title barcode size_value : Option JVal)
    (prices compare_prices : Market → Option ℚ) (qty : Option ℚ) (s : St) :
    Except St (WebhookResp × St) := do
  let r ← get_variant_product_and_inventory_by_sku w skuQ s
  match r.1 with
  | none => .ok (.notFound404, r.2)
  | some (variant_gid, product_gid, variant_id, inventory_item_id) =>
    if variant_gid = "" then .ok (.notFound404, r.2)
    else do
      let s := r.2
      let s ← if truthyO title || truthyO barcode then
          update_variant_details w variant_gid title barcode s
        else .ok s
      let s ← match title with
        | some t => if t.truthy then update_product_title w product_gid t s else .ok s
        | none => .ok s
      let s ← match size_value with
        | some v =>
            if v.truthy then
              set_metafield w variant_gid "custom" "size" "single_line_text_field" v s
            else .ok s
        | none => .ok s
      let s ← match prices .UAE with
        | some p => update_variant_default_price w variant_id p (compare_prices .UAE) s
        | none => .ok s
      let s ← match qty with
        | some q => do
            let r2 ← get_primary_location_id w s
            set_inventory_absolute w inventory_item_id r2.1 q r2.2
        | none => .ok s
      let r3 ← get_market_price_lists_call w s
      let s ← priceListLoop w variant_gid prices compare_prices r3.1 marketList r3.2
      .ok (.success200, s)

/-- `airtable_webhook` from `src/app.py`.  `secret` is `WEBHOOK_SECRET`,
`headerTok` the `X-Secret-Token` header (absent → `none`; the source
replaces a missing header by `""` and strips it), `body` the parsed JSON
body.  Returns the HTTP response and the final process state; an
exception escaping the pipeline surfaces as the framework's 500. -/
def airtable_webhook (secret : String) (headerTok : Option String) (body : Payload)
    (w : World) (s0 : St) : WebhookResp × St :=
  if pyStrip (headerTok.getD "") ≠ secret then
    (.unauthorized401, s0)
  else
    let sku := pget body "SKU"
    let title := pget body "Title"
    let barcode := pget body "Barcode"
    let size_value := pget body "Size"
    let prices : Market → Option ℚ := fun m => to_number (pget body (priceKey m))
    let compare_prices : Market → Option ℚ := fun m => to_number (pget body (compareKey m))
    let qty := to_number (pget body "Qty given in shopify")
    if truthyO sku = false then
      (.skuMissing400, s0)
    else
      match processSku w ("sku:" ++ pyStr (sku.getD (.str ""))) title barcode size_value
          prices compare_prices qty s0 with
      | .ok r => r
      | .error s => (.serverError500, s)

/-! ### Bridge lemmas between the computable arithmetic and `ℚ` -/

lemma ratSub_eq (a b : ℚ) : ratSub a b = a - b := (Rat.sub_def' a b).symm

lemma ratLtB_iff (a b : ℚ) : ratLtB a b = true ↔ a < b := by
  have h2 : a < b ↔ (a.num : ℚ) / (a.den : ℚ) < (b.num : ℚ) / (b.den : ℚ) := by
    rw [Rat.num_div_den, Rat.num_div_den]
  rw [ratLtB, decide_eq_true_eq, h2,
    div_lt_div_iff₀ (by exact_mod_cast a.den_pos) (by exact_mod_cast b.den_pos)]
  norm_cast

lemma tokenFresh_iff (now : ℚ) (st : TokenCache) :
    tokenFresh now st = true ↔ tokenTruthy st.token = true ∧ now - st.time < 3000 := by
  rw [tokenFresh, Bool.and_eq_true, ratLtB_iff, ratSub_eq]
  norm_num [Rat.mkRat_one]

lemma pyInt_nonneg_eq_floor (q : ℚ) (h : 0 ≤ q) : pyInt q = ⌊q⌋ := by
  unfold pyInt
  rw [Int.tdiv_eq_ediv (Rat.num_nonneg.2 h) (Int.ofNat_nonneg _)]
  exact Rat.floor_def.symm

lemma pyInt_trunc (q : ℚ) : pyInt q = if 0 ≤ q then ⌊q⌋ else ⌈q⌉ := by
  split
  · next h => exact pyInt_nonneg_eq_floor q h
  · next h =>
      push_neg at h
      have h3 : pyInt (-q) = ⌊-q⌋ := pyInt_nonneg_eq_floor _ (by linarith)
      have h4 : pyInt q = -(pyInt (-q)) := by
        unfold pyInt
        rw [Rat.neg_num, Rat.neg_den, Int.neg_tdiv, Int.neg_neg]
      rw [h4, h3, Int.floor_neg, Int.neg_neg]

/-! ### Behaviour of the token helper and `_json_headers` -/

lemma jsonHeaders_fresh (w : World) (s : St) (h : tokenFresh w.now s.tc = true) :
    jsonHeaders w s = .ok s := by
  unfold jsonHeaders get_shopify_access_token
  rw [if_pos h]
  simp

lemma get_token_ok_fresh (now : ℚ) (resp : Option String) (st : TokenCache)
    (tok : String) (tc2 : TokenCache) (issued : Bool)
    (h : get_shopify_access_token now resp st = (.ok tok, tc2, issued)) :
    tokenFresh now tc2 = true := by
  unfold get_shopify_access_token at h
  split at h
  · next hf =>
      simp only [Prod.mk.injEq] at h
      exact h.2.1 ▸ hf
  · split at h
    · simp at h
    · split at h
      · simp at h
      · next t ht =>
          simp only [Prod.mk.injEq] at h
          obtain ⟨-, h2, -⟩ := h
          subst h2
          rw [tokenFresh_iff]
          exact ⟨by simp [tokenTruthy, ht], by norm_num⟩

lemma get_token_ok_getD (now : ℚ) (resp : Option String) (st : TokenCache)
    (tok : String) (tc2 : TokenCache) (issued : Bool)
    (h : get_shopify_access_token now resp st = (.ok tok, tc2, issued)) :
    tc2.token.getD "" = tok := by
  unfold get_shopify_access_token at h
  split at h
  · simp only [Prod.mk.injEq, Except.ok.injEq] at h
    rw [← h.2.1, h.1]
  · split at h
    · simp at h
    · split at h
      · simp at h
      · simp only [Prod.mk.injEq, Except.ok.injEq] at h
        rw [← h.2.1, h.1]
        simp

lemma jsonHeaders_eq (w : World) (s : St) (tok : String) (tc2 : TokenCache) (issued : Bool)
    (h : get_shopify_access_token w.now w.tokenResp s.tc = (.ok tok, tc2, issued)) :
    jsonHeaders w s = .ok ⟨tc2, s.plc, s.tr ++ if issued then [OutCall.tokenExchange] else []⟩ := by
  unfold jsonHeaders
  rw [h]

lemma exceptOkBind {ε α β : Type} (a : α) (f : α → Except ε β) :
    (Except.ok a : Except ε α) >>= f = f a := rfl

lemma get_token_fresh_eq (now : ℚ) (resp : Option String) (st : TokenCache)
    (h : tokenFresh now st = true) :
    get_shopify_access_token now resp st = (.ok (st.token.getD ""), st, false) := by
  unfold get_shopify_access_token
  rw [if_pos h]

lemma get_token_refresh_eq (now : ℚ) (resp : Option String) (st : TokenCache)
    (tok : String) (h : ¬ tokenFresh now st = true) (hr : resp = some tok)
    (hne : tok ≠ "") :
    get_shopify_access_token now resp st = (.ok tok, ⟨some tok, now⟩, true) := by
  unfold get_shopify_access_token
  rw [if_neg h, hr]
  simp [hne]

/-! ### Concrete fixtures used by witnesses and counterexamples -/

/-- A world whose SKU search resolves, with warm-token-compatible clock. -/
def witWorld : World :=
  { now := mkRat 5 1, tokenResp := some "fresh-token",
    searchResult := some ⟨"gid://shopify/ProductVariant/111", "gid://shopify/Product/222"⟩,
    inventoryItemId := 5, primaryLocationId := 7, catalogNodes := [] }

/-- Same world with an unmatched SKU. -/
def witWorldNF : World :=
  { now := mkRat 5 1, tokenResp := some "fresh-token", searchResult := none,
    inventoryItemId := 5, primaryLocationId := 7, catalogNodes := [] }

/-- Warm caches: valid token, non-empty price-list cache, empty trace. -/
def witStWarm : St :=
  ⟨⟨some "cached-token", mkRat 0 1⟩,
   some [("United Arab Emirates", ⟨"gid-pl-1", "AED"⟩)], []⟩

/-- Valid token but cold (never populated) price-list cache. -/
def witStCold : St :=
  ⟨⟨some "cached-token", mkRat 0 1⟩, none, []⟩

/-! ### Claim C1 -/

/-- C1 (amended): with a valid secret, a resolving SKU, only
`Qty given in shopify` = "10" present, a valid cached token and an
already-populated (non-empty) price-list cache, the handler performs
exactly four outbound calls — one GraphQL variant search, one REST
variant detail fetch, one REST location fetch, one inventory-set call
with available = 10 — and no price, price-list, title, barcode, or
metafield calls.  (As stated the claim fails on a cold price-list cache:
the handler calls `get_market_price_lists()` unconditionally, which then
issues a fifth call, the catalog-listing GraphQL query; see the
counterexample.) -/
theorem C1_qty_only_exact_calls (secret : String) (header : Option String)
    (skuStr : String) (w : World) (node : VariantNode) (s0 : St)
    (hhdr : pyStrip (header.getD "") = secret)
    (hsku : skuStr ≠ "")
    (hnode : w.searchResult = some node)
    (hgid : node.id ≠ "")
    (htok : tokenFresh w.now s0.tc = true)
    (hplc : plTruthy s0.plc = true)
    (htr : s0.tr = []) :
    airtable_webhook secret header
      [("SKU", .str skuStr), ("Qty given in shopify", .str "10")] w s0 =
    (.success200, ⟨s0.tc, s0.plc,
      [.gqlVariantSearch ("sku:" ++ skuStr), .restGetVariant (lastSeg node.id),
       .restGetLocations,
       .restPostInventorySet w.inventoryItemId w.primaryLocationId 10]⟩) := by
  have hq : parseFloat "10" = some (mkRat 10 1) := by decide
  have hpy : pyInt 10 = 10 := by decide
  obtain ⟨tc, plc, tr⟩ := s0
  simp only at htok hplc htr
  subst htr
  simp [airtable_webhook, hhdr, pget, truthyO, JVal.truthy, hsku, processSku,
    get_variant_product_and_inventory_by_sku, jsonHeaders_fresh, htok, hnode, hgid,
    emit, pyStr, hq, hpy, to_number, update_variant_details, exceptOkBind,
    get_primary_location_id, set_inventory_absolute, get_market_price_lists_call,
    get_market_price_lists, hplc, priceListLoop, marketList, priceKey, compareKey]

/-- C1 witness: the amended theorem applied at a concrete request with
warm caches; exactly the four listed calls occur, with available = 10. -/
theorem C1_qty_only_exact_calls_witness :
    airtable_webhook "s3cret" (some "s3cret")
      [("SKU", .str "SKU-1"), ("Qty given in shopify", .str "10")] witWorld witStWarm =
    (.success200, ⟨witStWarm.tc, witStWarm.plc,
      [.gqlVariantSearch ("sku:" ++ "SKU-1"),
       .restGetVariant (lastSeg "gid://shopify/ProductVariant/111"),
       .restGetLocations,
       .restPostInventorySet witWorld.inventoryItemId witWorld.primaryLocationId 10]⟩) :=
  C1_qty_only_exact_calls "s3cret" (some "s3cret") "SKU-1" witWorld
    ⟨"gid://shopify/ProductVariant/111", "gid://shopify/Product/222"⟩ witStWarm
    (by decide) (by decide) rfl (by decide) (by decide) (by decide) rfl

/-- C1 counterexample: the same request against a cold price-list cache
performs five outbound calls, the fifth being the catalog-listing
GraphQL (price-list) query, so the claim's "exactly four outbound
platform calls; no price-list calls" is false as stated. -/
theorem C1_cold_cache_counterexample :
    (airtable_webhook "s3cret" (some "s3cret")
      [("SKU", .str "SKU-1"), ("Qty given in shopify", .str "10")] witWorld witStCold).2.tr =
      [.gqlVariantSearch "sku:SKU-1", .restGetVariant "111", .restGetLocations,
       .restPostInventorySet 5 7 10, .gqlCatalogList] ∧
    (airtable_webhook "s3cret" (some "s3cret")
      [("SKU", .str "SKU-1"), ("Qty given in shopify", .str "10")] witWorld witStCold).2.tr.length
      ≠ 4 := by
  constructor
  · decide
  · decide

/-! ### Claim C2 -/

/-- C2 (amended): the price-list cache is populated by the first call to
`get_market_price_lists`, and a subsequent call within the same process
lifetime returns the cached mapping without re-issuing the
catalog-listing query provided the first call's result was non-empty.
When the first call produced the empty mapping, the cached empty dict is
falsy (`if CACHED_PRICE_LISTS:`), so the next call re-issues the query —
contradicting the claim's "even when the first call's result was the
empty mapping"; see the counterexample. -/
theorem C2_cache_populated_once (nodes₁ nodes₂ : List CatalogNode)
    (h : buildPriceLists nodes₁ ≠ []) :
    get_market_price_lists nodes₁ none =
      (buildPriceLists nodes₁, some (buildPriceLists nodes₁), true) ∧
    get_market_price_lists nodes₂ (some (buildPriceLists nodes₁)) =
      (buildPriceLists nodes₁, some (buildPriceLists nodes₁), false) := by
  constructor
  · simp [get_market_price_lists, plTruthy]
  · simp [get_market_price_lists, plTruthy, List.isEmpty_eq_false, h]

/-- C2 witness: one active catalog with a price list; the first call
issues the query and populates the cache, the second call answers from
the cache without issuing the query. -/
theorem C2_cache_populated_once_witness :
    get_market_price_lists [⟨"United Arab Emirates", "ACTIVE", some ⟨"gid-pl-1", "AED"⟩⟩] none =
      (buildPriceLists [⟨"United Arab Emirates", "ACTIVE", some ⟨"gid-pl-1", "AED"⟩⟩],
       some (buildPriceLists [⟨"United Arab Emirates", "ACTIVE", some ⟨"gid-pl-1", "AED"⟩⟩]),
       true) ∧
    get_market_price_lists []
        (some (buildPriceLists [⟨"United Arab Emirates", "ACTIVE", some ⟨"gid-pl-1", "AED"⟩⟩])) =
      (buildPriceLists [⟨"United Arab Emirates", "ACTIVE", some ⟨"gid-pl-1", "AED"⟩⟩],
       some (buildPriceLists [⟨"United Arab Emirates", "ACTIVE", some ⟨"gid-pl-1", "AED"⟩⟩]),
       false) :=
  C2_cache_populated_once [⟨"United Arab Emirates", "ACTIVE", some ⟨"gid-pl-1", "AED"⟩⟩] []
    (by decide)

/-- C2 counterexample: when the first call's result is the empty
mapping, the cache is set to the (falsy) empty dict and the second call
re-issues the catalog-listing query — the claim's "without re-issuing
… even when the first call's result was the empty mapping" is false. -/
theorem C2_empty_result_counterexample :
    (get_market_price_lists ([] : List CatalogNode) none).2.1 = some [] ∧
    (get_market_price_lists ([] : List CatalogNode) none).2.2 = true ∧
    (get_market_price_lists ([] : List CatalogNode)
      (get_market_price_lists ([] : List CatalogNode) none).2.1).2.2 = true := by
  exact ⟨by decide, by decide, by decide⟩

/-! ### Claim C3 -/

/-- C3: token caching.  If a call to `get_shopify_access_token` at time
`t₁` succeeds with token `tok`, then a second call at any time `t₂` with
elapsed time since issuance below the 3000-second TTL returns the
identical cached token, leaves the cache unchanged and issues no second
token-exchange request.  And any call made when the cache is empty or
expired, whose exchange returns a (non-empty) `access_token`, issues
exactly one refresh request and overwrites the cache wholesale with the
new token and timestamp. -/
theorem C3_token_ttl (st st2 : TokenCache) (t₁ t₂ t₃ : ℚ)
    (r₁ r₂ : Option String) (tok tok3 : String)
    (h1 : (get_shopify_access_token t₁ r₁ st).1 = .ok tok)
    (h2 : t₂ - (get_shopify_access_token t₁ r₁ st).2.1.time < 3000)
    (h3 : ¬ (tokenTruthy st2.token = true ∧ t₃ - st2.time < 3000))
    (h4 : tok3 ≠ "") :
    get_shopify_access_token t₂ r₂ (get_shopify_access_token t₁ r₁ st).2.1 =
      (.ok tok, (get_shopify_access_token t₁ r₁ st).2.1, false) ∧
    get_shopify_access_token t₃ (some tok3) st2 = (.ok tok3, ⟨some tok3, t₃⟩, true) := by
  have hEq : get_shopify_access_token t₁ r₁ st =
      (Except.ok tok, (get_shopify_access_token t₁ r₁ st).2.1,
       (get_shopify_access_token t₁ r₁ st).2.2) := by
    rw [← h1]
  have hf1 := get_token_ok_fresh _ _ _ _ _ _ hEq
  have hgd := get_token_ok_getD _ _ _ _ _ _ hEq
  have htr1 := ((tokenFresh_iff _ _).1 hf1).1
  have hf2 : tokenFresh t₂ (get_shopify_access_token t₁ r₁ st).2.1 = true :=
    (tokenFresh_iff _ _).2 ⟨htr1, h2⟩
  refine ⟨?_, ?_⟩
  · rw [get_token_fresh_eq _ _ _ hf2, hgd]
  · exact get_token_refresh_eq _ _ _ _ (fun hh => h3 ((tokenFresh_iff _ _).1 hh)) rfl h4

/-- C3 witness: a cold cache refreshed at time 100 is answered from the
cache at time 200 with the identical token and no exchange; a separate
expired-cache call at time 0 issues one refresh and overwrites the
cache. -/
theorem C3_token_ttl_witness :
    get_shopify_access_token (mkRat 200 1) (some "tokB")
        (get_shopify_access_token (mkRat 100 1) (some "tokA") ⟨none, mkRat 0 1⟩).2.1 =
      (.ok "tokA",
       (get_shopify_access_token (mkRat 100 1) (some "tokA") ⟨none, mkRat 0 1⟩).2.1,
       false) ∧
    get_shopify_access_token (mkRat 0 1) (some "tokC") ⟨none, mkRat 0 1⟩ =
      (.ok "tokC", ⟨some "tokC", mkRat 0 1⟩, true) := by
  have hproj : (get_shopify_access_token (mkRat 100 1) (some "tokA")
      (⟨none, mkRat 0 1⟩ : TokenCache)).2.1 = ⟨some "tokA", mkRat 100 1⟩ := by decide
  exact C3_token_ttl ⟨none, mkRat 0 1⟩ ⟨none, mkRat 0 1⟩ (mkRat 100 1) (mkRat 200 1)
    (mkRat 0 1) (some "tokA") (some "tokB") "tokA" "tokC"
    rfl
    (by rw [hproj]; norm_num [Rat.mkRat_one])
    (by simp [tokenTruthy])
    (by decide)

/-! ### Claim C8 -/

/-- C8: when the token cache is empty or expired and the token
endpoint's JSON response has no `access_token` field,
`get_shopify_access_token` raises (modelled as `Except.error`), the
request is aborted, and the token cache is left completely unchanged —
the exchange request itself was already issued. -/
theorem C8_token_error_cache_unchanged (now : ℚ) (st : TokenCache)
    (h : ¬ (tokenTruthy st.token = true ∧ now - st.time < 3000)) :
    get_shopify_access_token now none st = (.error (), st, true) := by
  have hf : ¬ tokenFresh now st = true := fun hh => h ((tokenFresh_iff _ _).1 hh)
  unfold get_shopify_access_token
  rw [if_neg hf]

/-- C8 witness: an empty cache with a field-less token response yields
the error and the cache value is returned untouched. -/
theorem C8_token_error_cache_unchanged_witness :
    get_shopify_access_token (mkRat 5 1) none ⟨none, mkRat 0 1⟩ =
      (.error (), ⟨none, mkRat 0 1⟩, true) :=
  C8_token_error_cache_unchanged (mkRat 5 1) ⟨none, mkRat 0 1⟩
    (by simp [tokenTruthy])

/-! ### Claim C4 -/

/-- C4 (amended): the handler compares the `X-Secret-Token` header after
stripping leading/trailing whitespace (a missing header counts as the
empty string).  Whenever the stripped value differs from the configured
secret the handler returns 401 with body `{"error": "Unauthorized"}` and
issues zero outbound calls (the process state, trace included, is
returned unchanged); requests are processed further only when the
stripped header equals the secret.  (As literally stated — equality of
the raw header value — the claim fails: a header that differs from the
secret only by surrounding whitespace is accepted; see the
counterexample.) -/
theorem C4_unauthorized (secret : String) (header : Option String) (body : Payload)
    (w : World) (s0 : St)
    (h : pyStrip (header.getD "") ≠ secret) :
    airtable_webhook secret header body w s0 = (.unauthorized401, s0) ∧
    respStatus .unauthorized401 = 401 ∧
    respBody .unauthorized401 = some "\x7b\"error\": \"Unauthorized\"\x7d" := by
  refine ⟨?_, rfl, rfl⟩
  unfold airtable_webhook
  rw [if_pos h]

/-- C4 witness: a missing-header request is rejected with 401 and an
unchanged state. -/
theorem C4_unauthorized_witness :
    airtable_webhook "s3cret" none [] witWorld witStWarm = (.unauthorized401, witStWarm) ∧
    respStatus .unauthorized401 = 401 ∧
    respBody .unauthorized401 = some "\x7b\"error\": \"Unauthorized\"\x7d" :=
  C4_unauthorized "s3cret" none [] witWorld witStWarm (by decide)

/-- C4 counterexample: the header value `" s3cret"` is not equal to the
configured secret `"s3cret"`, yet the request is not rejected with 401 —
it proceeds to the SKU check — because the source strips the header
before comparing. -/
theorem C4_strip_counterexample :
    (" s3cret" : String) ≠ "s3cret" ∧
    airtable_webhook "s3cret" (some " s3cret") [] witWorld witStWarm =
      (.skuMissing400, witStWarm) := by
  constructor
  · decide
  · decide

/-! ### Claim C5 -/

/-- C5: for every request that passes the secret check and whose JSON
body has no `SKU` key, the handler returns 400 with body
`{"error": "SKU missing"}` and issues zero outbound calls — no token
exchange and no platform call (the process state, trace included, is
returned unchanged). -/
theorem C5_sku_absent (secret : String) (header : Option String) (body : Payload)
    (w : World) (s0 : St)
    (hhdr : pyStrip (header.getD "") = secret)
    (hsku : pget body "SKU" = none) :
    airtable_webhook secret header body w s0 = (.skuMissing400, s0) ∧
    respStatus .skuMissing400 = 400 ∧
    respBody .skuMissing400 = some "\x7b\"error\": \"SKU missing\"\x7d" := by
  refine ⟨?_, rfl, rfl⟩
  unfold airtable_webhook
  rw [hhdr]
  simp [hsku, truthyO]

/-- C5 witness: a body carrying only a title is rejected with 400 and an
unchanged state. -/
theorem C5_sku_absent_witness :
    airtable_webhook "s3cret" (some "s3cret") [("Title", .str "New title")]
      witWorld witStWarm = (.skuMissing400, witStWarm) ∧
    respStatus .skuMissing400 = 400 ∧
    respBody .skuMissing400 = some "\x7b\"error\": \"SKU missing\"\x7d" :=
  C5_sku_absent "s3cret" (some "s3cret") [("Title", .str "New title")] witWorld witStWarm
    (by decide) (by decide)

/-! ### Claim C6 -/

/-- C6: for every request with a valid secret and a (truthy) SKU that
matches no variant, and whose token fetch succeeds, the handler returns
404 `{"error": "Variant not found"}` after exactly one GraphQL search
call for `sku:<value>` (restricted to the first match) — the trace holds
that one search, preceded at most by a token exchange, with no REST
detail fetch and no update calls. -/
theorem C6_variant_not_found (secret : String) (header : Option String) (body : Payload)
    (w : World) (s0 : St) (skuV : JVal) (tok : String) (tc2 : TokenCache) (issued : Bool)
    (hhdr : pyStrip (header.getD "") = secret)
    (hsku : pget body "SKU" = some skuV)
    (ht : skuV.truthy = true)
    (hsearch : w.searchResult = none)
    (htok : get_shopify_access_token w.now w.tokenResp s0.tc = (.ok tok, tc2, issued))
    (htr : s0.tr = []) :
    airtable_webhook secret header body w s0 =
      (.notFound404, ⟨tc2, s0.plc,
        (if issued then [OutCall.tokenExchange] else []) ++
        [.gqlVariantSearch ("sku:" ++ pyStr skuV)]⟩) ∧
    respStatus .notFound404 = 404 ∧
    respBody .notFound404 = some "\x7b\"error\": \"Variant not found\"\x7d" := by
  refine ⟨?_, rfl, rfl⟩
  obtain ⟨tc, plc, tr⟩ := s0
  simp only at htok htr
  subst htr
  have hj := jsonHeaders_eq w ⟨tc, plc, []⟩ tok tc2 issued htok
  simp [airtable_webhook, hhdr, hsku, truthyO, ht, processSku,
    get_variant_product_and_inventory_by_sku, hj, emit, hsearch, exceptOkBind]

/-- C6 witness: an unmatched SKU with a warm token cache yields 404 and
a trace holding exactly the one variant-search call. -/
theorem C6_variant_not_found_witness :
    airtable_webhook "s3cret" (some "s3cret") [("SKU", .str "SKU-1")] witWorldNF witStWarm =
      (.notFound404, ⟨⟨some "cached-token", mkRat 0 1⟩, witStWarm.plc,
        [.gqlVariantSearch "sku:SKU-1"]⟩) ∧
    respStatus .notFound404 = 404 ∧
    respBody .notFound404 = some "\x7b\"error\": \"Variant not found\"\x7d" :=
  C6_variant_not_found "s3cret" (some "s3cret") [("SKU", .str "SKU-1")] witWorldNF witStWarm
    (.str "SKU-1") "cached-token" ⟨some "cached-token", mkRat 0 1⟩ false
    (by decide) (by decide) (by decide) rfl rfl rfl

/-! ### Claim C7 -/

/-- C7: with UAE price = "99.5" given and no UAE comparison price, the
default-price updater issues one REST `PUT` whose payload sets
price = "99.5" and carries no `compare_at_price` field; and when the UAE
market's catalog title resolves in the cached price-list set, one
fixed-price add mutation follows with amount "99.5" in that catalog's
currency (and no compare-at amount); when it does not resolve, the
market is silently skipped. -/
theorem C7_uae_price (secret : String) (header : Option String) (skuStr : String)
    (w : World) (node : VariantNode) (s0 : St) (pls : PriceLists)
    (hhdr : pyStrip (header.getD "") = secret)
    (hsku : skuStr ≠ "")
    (hnode : w.searchResult = some node)
    (hgid : node.id ≠ "")
    (htok : tokenFresh w.now s0.tc = true)
    (hplc : s0.plc = some pls)
    (hne : pls ≠ [])
    (htr : s0.tr = []) :
    airtable_webhook secret header
      [("SKU", .str skuStr), ("UAE price", .str "99.5")] w s0 =
    (.success200, ⟨s0.tc, s0.plc,
      [.gqlVariantSearch ("sku:" ++ skuStr), .restGetVariant (lastSeg node.id),
       .restPutVariantPrice (lastSeg node.id) "99.5" none] ++
      (match plGet pls "United Arab Emirates" with
       | some pl => [.gqlPriceListFixedPricesAdd pl.id node.id "99.5" pl.currency none]
       | none => [])⟩) := by
  have h995 : parseFloat "99.5" = some (mkRat 199 2) := by decide
  have hs : ratToPyStr (mkRat 199 2) = "99.5" := by decide
  obtain ⟨tc, plc, tr⟩ := s0
  simp only at htok hplc htr
  subst htr
  subst hplc
  cases hpl : plGet pls "United Arab Emirates" <;>
    simp [airtable_webhook, hhdr, pget, truthyO, JVal.truthy, hsku, processSku,
      get_variant_product_and_inventory_by_sku, jsonHeaders_fresh, htok, hnode, hgid,
      emit, pyStr, h995, hs, to_number, update_variant_details, exceptOkBind,
      update_variant_default_price, update_price_list, get_market_price_lists_call,
      get_market_price_lists, plTruthy, List.isEmpty_eq_false, hne,
      priceListLoop, marketList, priceKey, compareKey, MARKET_NAMES, hpl]

/-- C7 witness: with the UAE catalog cached, the handler issues the
variant search, the detail fetch, the price `PUT` with price "99.5" and
no compare-at field, and the fixed-price add with amount "99.5" in the
catalog's currency. -/
theorem C7_uae_price_witness :
    airtable_webhook "s3cret" (some "s3cret")
      [("SKU", .str "SKU-1"), ("UAE price", .str "99.5")] witWorld witStWarm =
    (.success200, ⟨witStWarm.tc, witStWarm.plc,
      [.gqlVariantSearch "sku:SKU-1", .restGetVariant "111",
       .restPutVariantPrice "111" "99.5" none,
       .gqlPriceListFixedPricesAdd "gid-pl-1" "gid://shopify/ProductVariant/111"
         "99.5" "AED" none]⟩) :=
  C7_uae_price "s3cret" (some "s3cret") "SKU-1" witWorld
    ⟨"gid://shopify/ProductVariant/111", "gid://shopify/Product/222"⟩ witStWarm
    [("United Arab Emirates", ⟨"gid-pl-1", "AED"⟩)]
    (by decide) (by decide) rfl (by decide) (by decide) rfl (by decide) rfl

/-! ### Claim C10 -/

/-- C10: whenever the `Qty given in shopify` value parses to a number
`q` (in particular a non-integral one such as "10.5"), the single
inventory-set call carries `available = int(q)`, the truncation of `q`
toward zero (floor for non-negative values, ceiling for negative ones);
a fractional quantity is never forwarded to the platform. -/
theorem C10_qty_truncation (secret : String) (header : Option String) (skuStr : String)
    (qv : JVal) (q : ℚ) (w : World) (node : VariantNode) (s0 : St)
    (hhdr : pyStrip (header.getD "") = secret)
    (hsku : skuStr ≠ "")
    (hq : to_number (some qv) = some q)
    (hnode : w.searchResult = some node)
    (hgid : node.id ≠ "")
    (htok : tokenFresh w.now s0.tc = true)
    (hplc : plTruthy s0.plc = true)
    (htr : s0.tr = []) :
    airtable_webhook secret header
      [("SKU", .str skuStr), ("Qty given in shopify", qv)] w s0 =
    (.success200, ⟨s0.tc, s0.plc,
      [.gqlVariantSearch ("sku:" ++ skuStr), .restGetVariant (lastSeg node.id),
       .restGetLocations,
       .restPostInventorySet w.inventoryItemId w.primaryLocationId (pyInt q)]⟩) ∧
    pyInt q = if 0 ≤ q then ⌊q⌋ else ⌈q⌉ := by
  refine ⟨?_, pyInt_trunc q⟩
  have hn : to_number none = none := rfl
  obtain ⟨tc, plc, tr⟩ := s0
  simp only at htok hplc htr
  subst htr
  simp [airtable_webhook, hhdr, pget, truthyO, JVal.truthy, hsku, processSku,
    get_variant_product_and_inventory_by_sku, jsonHeaders_fresh, htok, hnode, hgid,
    emit, pyStr, hq, hn, update_variant_details, exceptOkBind,
    get_primary_location_id, set_inventory_absolute, get_market_price_lists_call,
    get_market_price_lists, hplc, priceListLoop, marketList, priceKey, compareKey]

/-- C10 witness: `Qty given in shopify` = "10.5" leads to an
inventory-set call with `available = 10`. -/
theorem C10_qty_truncation_witness :
    airtable_webhook "s3cret" (some "s3cret")
      [("SKU", .str "SKU-1"), ("Qty given in shopify", .str "10.5")] witWorld witStWarm =
    (.success200, ⟨witStWarm.tc, witStWarm.plc,
      [.gqlVariantSearch "sku:SKU-1", .restGetVariant "111", .restGetLocations,
       .restPostInventorySet 5 7 10]⟩) ∧
    pyInt (mkRat 21 2) = if 0 ≤ (mkRat 21 2 : ℚ) then ⌊(mkRat 21 2 : ℚ)⌋ else ⌈(mkRat 21 2 : ℚ)⌉ :=
  C10_qty_truncation "s3cret" (some "s3cret") "SKU-1" (.str "10.5") (mkRat 21 2)
    witWorld ⟨"gid://shopify/ProductVariant/111", "gid://shopify/Product/222"⟩ witStWarm
    (by decide) (by decide) (by decide) rfl (by decide) (by decide) (by decide) rfl

/-! ### Claim C9 -/

/-- C9: a request whose body contains the `SKU` key with a falsy value
(the empty string, `0`, `false`, …) is handled exactly like one whose
`SKU` key is absent: 400 `{"error": "SKU missing"}` and zero outbound
calls, the process state returned unchanged. -/
theorem C9_falsy_sku (secret : String) (header : Option String) (body : Payload)
    (w : World) (s0 : St) (v : JVal)
    (hhdr : pyStrip (header.getD "") = secret)
    (hsku : pget body "SKU" = some v)
    (hv : v.truthy = false) :
    airtable_webhook secret header body w s0 = (.skuMissing400, s0) ∧
    respStatus .skuMissing400 = 400 ∧
    respBody .skuMissing400 = some "\x7b\"error\": \"SKU missing\"\x7d" := by
  refine ⟨?_, rfl, rfl⟩
  unfold airtable_webhook
  rw [hhdr]
  simp [hsku, truthyO, hv]

/-- C9 witness: `SKU` present with the empty string is rejected with 400
and an unchanged state. -/
theorem C9_falsy_sku_witness :
    airtable_webhook "s3cret" (some "s3cret")
      [("SKU", .str ""), ("Qty given in shopify", .str "10")] witWorld witStWarm =
      (.skuMissing400, witStWarm) ∧
    respStatus .skuMissing400 = 400 ∧
    respBody .skuMissing400 = some "\x7b\"error\": \"SKU missing\"\x7d" :=
  C9_falsy_sku "s3cret" (some "s3cret")
    [("SKU", .str ""), ("Qty given in shopify", .str "10")] witWorld witStWarm (.str "")
    (by decide) (by decide) (by decide)

end ShopifySync
